import Mathlib

/-
Verification of the SASL state machine and connection driver of this
repository (proton-c/src/sasl/sasl.c and
proton-c/bindings/cpp/src/io/connection_driver.cpp), via a shallow
embedding of the relevant C/C++ functions as Lean definitions.
-/

namespace QpidProton

/-- Modelled from the spec: the enumeration `enum pni_sasl_state` is declared
in sasl-internal.h, which is not under src/.  The constructor order (and so
the numeric comparisons `<`, `>` used by sasl.c) is fixed by the ordering
relations of spec section 4.4: a downgrade is `s < last_state`; the rewind
targets POSTED_INIT < POSTED_RESPONSE and POSTED_MECHANISMS <
POSTED_CHALLENGE; the prerequisites give POSTED_MECHANISMS < POSTED_OUTCOME,
POSTED_INIT < PRETEND_OUTCOME and POSTED_INIT < RECVED_OUTCOME; and the
anonymous short-circuit (PRETEND_OUTCOME followed by a real OUTCOME receipt
setting RECVED_OUTCOME) gives PRETEND_OUTCOME < RECVED_OUTCOME. -/
inductive pni_sasl_state where
  | SASL_NONE
  | SASL_POSTED_INIT
  | SASL_POSTED_MECHANISMS
  | SASL_POSTED_RESPONSE
  | SASL_POSTED_CHALLENGE
  | SASL_PRETEND_OUTCOME
  | SASL_RECVED_OUTCOME
  | SASL_POSTED_OUTCOME
deriving DecidableEq, Fintype

open pni_sasl_state

/-- Numeric value of a state: the C enum comparisons in sasl.c are
comparisons of these values. -/
def stateVal : pni_sasl_state → Nat
  | SASL_NONE => 0
  | SASL_POSTED_INIT => 1
  | SASL_POSTED_MECHANISMS => 2
  | SASL_POSTED_RESPONSE => 3
  | SASL_POSTED_CHALLENGE => 4
  | SASL_PRETEND_OUTCOME => 5
  | SASL_RECVED_OUTCOME => 6
  | SASL_POSTED_OUTCOME => 7

/-- Modelled from the spec: `pn_sasl_outcome_t` is declared in proton/sasl.h
(not under src/); the outcome set is listed in spec sections 3 and the
glossary: NONE, OK, AUTH, SYS, PERM, TEMP. -/
inductive pn_sasl_outcome_t where
  | PN_SASL_NONE
  | PN_SASL_OK
  | PN_SASL_AUTH
  | PN_SASL_SYS
  | PN_SASL_PERM
  | PN_SASL_TEMP
deriving DecidableEq, Fintype

open pn_sasl_outcome_t

/-- Modelled from the spec: the fields of `pni_sasl_t` (sasl-internal.h, not
under src/) that the functions of sasl.c manipulate, as listed in spec
section 3 (SaslContext).  Owned C strings are embedded as `Option String`
(NULL = `none`); `bytes_out` is embedded as the byte string it designates. -/
structure pni_sasl_t where
  client : Bool
  selected_mechanism : Option String
  included_mechanisms : Option String
  outcome : pn_sasl_outcome_t
  bytes_out : String
  last_state : pni_sasl_state
  desired_state : pni_sasl_state
  input_bypass : Bool
  output_bypass : Bool
deriving DecidableEq

/-- sasl.c pni_sasl_is_server_state (lines 163-169). -/
def pni_sasl_is_server_state (state : pni_sasl_state) : Bool :=
  state = SASL_NONE
    || state = SASL_POSTED_MECHANISMS
    || state = SASL_POSTED_CHALLENGE
    || state = SASL_POSTED_OUTCOME

/-- sasl.c pni_sasl_is_client_state (lines 171-178). -/
def pni_sasl_is_client_state (state : pni_sasl_state) : Bool :=
  state = SASL_NONE
    || state = SASL_POSTED_INIT
    || state = SASL_POSTED_RESPONSE
    || state = SASL_PRETEND_OUTCOME
    || state = SASL_RECVED_OUTCOME

/-- sasl.c pni_sasl_is_final_input_state (lines 180-186). -/
def pni_sasl_is_final_input_state (sasl : pni_sasl_t) : Bool :=
  sasl.last_state = SASL_RECVED_OUTCOME || sasl.desired_state = SASL_POSTED_OUTCOME

/-- sasl.c pni_sasl_is_final_output_state (lines 188-194). -/
def pni_sasl_is_final_output_state (sasl : pni_sasl_t) : Bool :=
  sasl.last_state = SASL_PRETEND_OUTCOME
    || sasl.last_state = SASL_RECVED_OUTCOME
    || sasl.last_state = SASL_POSTED_OUTCOME

/-- The state a context is in `pni_sasl_set_desired_state` when the role
check passes: the claim wording "legal for the context's role". -/
def roleLegal (client : Bool) (s : pni_sasl_state) : Bool :=
  if client then pni_sasl_is_client_state s else pni_sasl_is_server_state s

/-- The decision core of sasl.c pni_sasl_set_desired_state (lines 265-286):
given role, current last_state and the requested state, returns `none` when
the request is rejected (a downgrade or a role violation, which the C code
only logs), and `some l` when it is applied with `l` the new last_state
(reflecting the repeat-RESPONSE / repeat-CHALLENGE rewinds). -/
def setDesiredCore (client : Bool) (last s : pni_sasl_state) : Option pni_sasl_state :=
  if stateVal last > stateVal s then none
  else if client && !pni_sasl_is_client_state s then none
  else if !client && !pni_sasl_is_server_state s then none
  else some (
    if last = s && s = SASL_POSTED_RESPONSE then SASL_POSTED_INIT
    else if last = s && s = SASL_POSTED_CHALLENGE then SASL_POSTED_MECHANISMS
    else last)

/-- Result of pni_sasl_set_desired_state: the updated context, whether the
rejection message was logged (pn_transport_logf), and whether pni_emit was
invoked.  pni_emit (sasl.c lines 202-208) posts a PN_TRANSPORT event to the
connection's collector when one is attached. -/
structure SetStateResult where
  sasl : pni_sasl_t
  logged : Bool
  emitted : Bool
deriving DecidableEq

/-- sasl.c pni_sasl_set_desired_state (lines 265-286). -/
def pni_sasl_set_desired_state (sasl : pni_sasl_t) (desired_state : pni_sasl_state) :
    SetStateResult :=
  match setDesiredCore sasl.client sasl.last_state desired_state with
  | none => ⟨sasl, true, false⟩
  | some l =>
      ⟨{ sasl with last_state := l, desired_state := desired_state }, false, true⟩

/-- sasl.c pn_do_outcome: the PN_TRANSPORT event type posted by pni_emit. -/
inductive pn_event_type where
  | PN_TRANSPORT
deriving DecidableEq

/-- sasl.c pni_emit (lines 202-208): posts a PN_TRANSPORT event to the
collector when the transport has a connection with a collector attached. -/
def pni_emit (hasCollector : Bool) (events : List pn_event_type) : List pn_event_type :=
  if hasCollector then events ++ [pn_event_type.PN_TRANSPORT] else events

/-- sasl.c pni_included_mech (lines 214-232), the inner scan.  `c` is the
suffix of the inclusion list the cursor points at; moving the cursor to
just after the next space (strchr then +1) strictly shrinks the suffix, so
a fuel of `length + 1` never runs out before the C loop's own exit. -/
def dropWord : List Char → Option (List Char)
  | [] => none
  | c :: rest => if c = ' ' then some rest else dropWord rest

/-- The `c[len]` test of sasl.c line 226: the character just after the
candidate match must be a space or the terminating NUL (here: end of
list). -/
def boundaryOk : List Char → Bool
  | [] => true
  | c :: _ => c = ' '

/-- Case-insensitive equality of two character lists, as C strncasecmp
compares (ASCII tolower on each byte). -/
def ciEq (a b : List Char) : Bool := a.map Char.toLower = b.map Char.toLower

/-- sasl.c pni_included_mech (lines 214-232), loop body: at each cursor
position, return false when fewer characters remain than the symbol's
length (line 223), succeed when the symbol matches case-insensitively and
is followed by a space or the end (line 226), otherwise advance to just
after the next space, or fail when there is none (lines 228-229). -/
def inclLoop (s : List Char) : Nat → List Char → Bool
  | 0, _ => false
  | Nat.succ fuel, c =>
    if s.length > c.length then false
    else if ciEq s (c.take s.length) && boundaryOk (c.drop s.length) then true
    else
      match dropWord c with
      | none => false
      | some c2 => inclLoop s fuel c2

/-- sasl.c pni_included_mech (lines 214-232): with no inclusion list every
mechanism is implicitly included; otherwise scan the list. -/
def pni_included_mech (included_mech_list : Option String) (s : String) : Bool :=
  match included_mech_list with
  | none => true
  | some l => inclLoop s.data (l.data.length + 1) l.data

/-- Spec-side reading of the allow-list match: the suffixes of the list
that start just after each space. -/
def spaceSuffixes : Nat → List Char → List (List Char)
  | 0, _ => []
  | Nat.succ fuel, c =>
    match dropWord c with
    | none => []
    | some c2 => c2 :: spaceSuffixes fuel c2

/-- Spec-side reading of the allow-list match: a candidate position is the
start of the list or any position just after a space (space as
delimiter). -/
def allowListCandidates (l : List Char) : List (List Char) :=
  l :: spaceSuffixes (l.length + 1) l

/-- A candidate position matches the symbol when the symbol fits, compares
equal case-insensitively, and is followed by a space or the end of the
string (the claim's "space or end-of-string as delimiter"). -/
def candOk (s c : List Char) : Bool :=
  decide (s.length ≤ c.length) && ciEq s (c.take s.length) && boundaryOk (c.drop s.length)

/-- Spec-side allow-list predicate: the symbol matches the list
case-insensitively at some space-delimited position. -/
def matchesAllowList (l s : List Char) : Bool :=
  (allowListCandidates l).any (fun c => candOk s c)

/-- sasl.c pni_split_mechs (lines 238-263), loop: `tok` is the current
token being accumulated (the slice between `start` and `end`); at a space a
nonempty token passing pni_included_mech is stored, and at the end of the
string the final token is stored under the same conditions.  The returned
list holds the stored tokens in the order the C code writes them at
`mechs[(*count)++]`. -/
def pni_split_mechs_loop (included_mechs : Option String) (tok : List Char) :
    List Char → List (List Char)
  | [] =>
      if tok ≠ [] && pni_included_mech included_mechs (String.mk tok) then [tok] else []
  | c :: rest =>
      if c = ' ' then
        if tok ≠ [] && pni_included_mech included_mechs (String.mk tok) then
          tok :: pni_split_mechs_loop included_mechs [] rest
        else
          pni_split_mechs_loop included_mechs [] rest
      else
        pni_split_mechs_loop included_mechs (tok ++ [c]) rest

/-- sasl.c pni_split_mechs (lines 238-263): tokenize the space separated
list, filter each token through the allow-list, and return the stored
tokens in order.  The C code stores them at increasing indices of the
caller's array and maintains no bound of its own. -/
def pni_split_mechs (mechlist : String) (included_mechs : Option String) : List String :=
  (pni_split_mechs_loop included_mechs [] mechlist.data).map String.mk

/-- The SASL frames pn_post_frame is asked to encode by
pni_post_sasl_frame (sasl.c lines 289-354), with the fields each call
passes. -/
inductive SaslFrame where
  | init (mechanism : Option String) (payload : String)
  | mechanisms (mechs : List String)
  | response (payload : String)
  | challenge (payload : String)
  | outcome (code : pn_sasl_outcome_t)
deriving DecidableEq

/-- The local `desired_state` adjustment of one iteration of the
pni_post_sasl_frame loop (sasl.c lines 294-353): the switch cases for
PRETEND_OUTCOME, POSTED_CHALLENGE, POSTED_OUTCOME and RECVED_OUTCOME lower
the local target and `continue` when their prerequisite on last_state is
unmet; the loop then re-dispatches on the lowered target, whose own case
never lowers again. -/
def resolveTarget (last target : pni_sasl_state) (outcome : pn_sasl_outcome_t) :
    pni_sasl_state :=
  match target with
  | SASL_PRETEND_OUTCOME =>
      if stateVal last < stateVal SASL_POSTED_INIT then SASL_POSTED_INIT else target
  | SASL_POSTED_CHALLENGE =>
      if stateVal last < stateVal SASL_POSTED_MECHANISMS then SASL_POSTED_MECHANISMS
      else target
  | SASL_POSTED_OUTCOME =>
      if stateVal last < stateVal SASL_POSTED_MECHANISMS then SASL_POSTED_MECHANISMS
      else target
  | SASL_RECVED_OUTCOME =>
      if stateVal last < stateVal SASL_POSTED_INIT && outcome = PN_SASL_OK then
        SASL_POSTED_INIT
      else target
  | t => t

/-- The symbol array the POSTED_MECHANISMS case posts (sasl.c lines
307-321): empty when the backend returned no list
(pni_sasl_impl_list_mechs not positive), else the split and filtered
backend list. -/
def postedMechs (included_mechs : Option String) (mechlist : Option String) :
    List String :=
  match mechlist with
  | none => []
  | some l => pni_split_mechs l included_mechs

/-- The frame pn_post_frame encodes when the pni_post_sasl_frame loop
commits target state `t` (sasl.c lines 296-341).  The MECHANISMS case asks
the backend for its list (pni_sasl_impl_list_mechs, modelled as the
`mechlist` argument, `none` when the backend returns no list) and splits and
filters it; PRETEND_OUTCOME and RECVED_OUTCOME post nothing. -/
def frameFor (sasl : pni_sasl_t) (mechlist : Option String) (t : pni_sasl_state) :
    List SaslFrame :=
  match t with
  | SASL_POSTED_INIT => [SaslFrame.init sasl.selected_mechanism sasl.bytes_out]
  | SASL_POSTED_MECHANISMS =>
      [SaslFrame.mechanisms (postedMechs sasl.included_mechanisms mechlist)]
  | SASL_POSTED_RESPONSE => [SaslFrame.response sasl.bytes_out]
  | SASL_POSTED_CHALLENGE => [SaslFrame.challenge sasl.bytes_out]
  | SASL_POSTED_OUTCOME => [SaslFrame.outcome sasl.outcome]
  | _ => []

/-- sasl.c pni_post_sasl_frame (lines 289-354), the while loop: while the
field desired_state is above last_state, resolve the local target, post its
frame, and set last_state to the resolved target.  last_state strictly
increases at each iteration, so a fuel of 8 (the number of states) is never
exhausted before the loop's own guard exits. -/
def drainLoop (sasl : pni_sasl_t) (mechlist : Option String) :
    Nat → pni_sasl_state → pni_sasl_state × List SaslFrame
  | 0, last => (last, [])
  | Nat.succ fuel, last =>
    if stateVal sasl.desired_state > stateVal last then
      let t := resolveTarget last sasl.desired_state sasl.outcome
      let rest := drainLoop sasl mechlist fuel t
      (rest.1, frameFor sasl mechlist t ++ rest.2)
    else (last, [])

/-- sasl.c pni_post_sasl_frame (lines 289-354): drain last_state toward
desired_state, returning the updated context and the frames posted in
order. -/
def pni_post_sasl_frame (sasl : pni_sasl_t) (mechlist : Option String) :
    pni_sasl_t × List SaslFrame :=
  let r := drainLoop sasl mechlist 8 sasl.last_state
  ({ sasl with last_state := r.1 }, r.2)

/-- Result of pn_do_mechanisms: the updated context and the filtered list
string handed to the backend's pni_process_mechanisms, `none` when the
frame was ignored or the backend was never offered a list (init failed or
the frame was ignored in PRETEND_OUTCOME). -/
structure DoMechResult where
  sasl : pni_sasl_t
  offered : Option String
deriving DecidableEq

/-- sasl.c pn_do_mechanisms (lines 568-604), client side.  `symbols` are
the symbols decoded from the received MECHANISMS frame in order; the
backend calls pni_init_client and pni_process_mechanisms are modelled by
the `init_client_ok` flag and the `process_mechanisms_ok` predicate.  A
context already in PRETEND_OUTCOME ignores the frame.  Otherwise each
symbol passing pni_included_mech is appended to a character buffer followed
by a space (pn_string_addf with "%*s "); when the buffer is nonempty the C
code overwrites its final byte with NUL (line 591), so the C string handed
to the backend is the buffer without its last character.  On backend
success the desired state is set to POSTED_INIT; on failure the outcome
becomes PERM and the desired state RECVED_OUTCOME. -/
def pn_do_mechanisms (sasl : pni_sasl_t) (symbols : List String)
    (init_client_ok : Bool) (process_mechanisms_ok : String → Bool) : DoMechResult :=
  if sasl.last_state = SASL_PRETEND_OUTCOME then ⟨sasl, none⟩
  else
    let kept := symbols.filter (fun s => pni_included_mech sasl.included_mechanisms s)
    let buf : List Char := (kept.map (fun s => s.data ++ [' '])).foldr (· ++ ·) []
    let mechsStr : String := String.mk (if buf.length > 0 then buf.dropLast else buf)
    if init_client_ok && process_mechanisms_ok mechsStr then
      ⟨(pni_sasl_set_desired_state sasl SASL_POSTED_INIT).sasl, some mechsStr⟩
    else
      ⟨(pni_sasl_set_desired_state { sasl with outcome := PN_SASL_PERM }
          SASL_RECVED_OUTCOME).sasl,
        if init_client_ok then some mechsStr else none⟩

/-- Spec-side reading of the offered string: the kept symbols concatenated
space-separated with the trailing separator trimmed. -/
def spaceJoin : List String → List Char
  | [] => []
  | [s] => s.data
  | s :: rest => s.data ++ ' ' :: spaceJoin rest

/-- sasl.c pni_sasl_force_anonymous (lines 395-408): on a client, pretend a
MECHANISMS frame with just ANONYMOUS was received; on a server do
nothing.  Backend calls are modelled as for pn_do_mechanisms. -/
def pni_sasl_force_anonymous (sasl : pni_sasl_t)
    (init_client_ok : Bool) (process_mechanisms_ok : String → Bool) : pni_sasl_t :=
  if sasl.client then
    if init_client_ok && process_mechanisms_ok "ANONYMOUS" then
      (pni_sasl_set_desired_state sasl SASL_PRETEND_OUTCOME).sasl
    else
      (pni_sasl_set_desired_state { sasl with outcome := PN_SASL_PERM }
        SASL_RECVED_OUTCOME).sasl
  else sasl

/-- Result of pn_sasl_allowed_mechs: the updated context and whether the
anonymous short-circuit (pni_sasl_force_anonymous) was invoked. -/
structure AllowedMechsResult where
  sasl : pni_sasl_t
  anonymous_forced : Bool
deriving DecidableEq

/-- sasl.c pn_sasl_allowed_mechs (lines 444-453).  The C code first frees
and replaces included_mechanisms, guarding the NULL case with
`mechs ? pn_strdup(mechs) : NULL`, but then calls
`strcmp(mechs, "ANONYMOUS")` without any guard: when the caller passes NULL
(`none` here) strcmp dereferences a null pointer, which is undefined
behaviour, represented as the `none` result.  Only the exact string
"ANONYMOUS" triggers the short-circuit. -/
def pn_sasl_allowed_mechs (sasl : pni_sasl_t) (mechs : Option String)
    (init_client_ok : Bool) (process_mechanisms_ok : String → Bool) :
    Option AllowedMechsResult :=
  let sasl1 := { sasl with included_mechanisms := mechs }
  match mechs with
  | none => none
  | some m =>
      if m = "ANONYMOUS" then
        some ⟨pni_sasl_force_anonymous sasl1 init_client_ok process_mechanisms_ok, true⟩
      else
        some ⟨sasl1, false⟩

/-- Modelled from the spec: the fields of `pn_transport_t`
(engine-internal.h, not under src/) that the sasl.c accessors touch.  The
public `pn_sasl_t` handle is a punned pointer to the transport (sasl.c
lines 33-37 and 196-200), so a nullable handle is an `Option` of this
record, and the transport's own `sasl` member is itself nullable. -/
structure pn_transport_t where
  server : Bool
  close_sent : Bool
  authenticated : Bool
  sasl : Option pni_sasl_t
deriving DecidableEq

/-- sasl.c get_sasl_internal (lines 196-200): NULL-check the handle, then
read the transport's sasl member. -/
def get_sasl_internal (sasl0 : Option pn_transport_t) : Option pni_sasl_t :=
  match sasl0 with
  | none => none
  | some t => t.sasl

/-- sasl.c pn_sasl_outcome (lines 476-480): `sasl ? sasl->outcome :
PN_SASL_NONE`. -/
def pn_sasl_outcome (sasl0 : Option pn_transport_t) : pn_sasl_outcome_t :=
  match get_sasl_internal sasl0 with
  | none => PN_SASL_NONE
  | some sasl => sasl.outcome

/-- sasl.c pn_sasl_done (lines 468-474): `if (sasl) sasl->outcome =
outcome`; returns the transport state after the call. -/
def pn_sasl_done (sasl0 : Option pn_transport_t) (outcome : pn_sasl_outcome_t) :
    Option pn_transport_t :=
  match sasl0 with
  | none => none
  | some t =>
      match t.sasl with
      | none => some t
      | some sasl => some { t with sasl := some { sasl with outcome := outcome } }

/-- Modelled from the spec: `pni_protocol_type_t` (transport/autodetect.h,
not under src/); spec section 4.3 classifies the 8-byte preamble as AMQP,
AMQP-SASL, AMQP-TLS, insufficient, or other. -/
inductive pni_protocol_type where
  | PNI_PROTOCOL_INSUFFICIENT
  | PNI_PROTOCOL_AMQP1
  | PNI_PROTOCOL_AMQP_SASL
  | PNI_PROTOCOL_AMQP_SSL
  | PNI_PROTOCOL_UNKNOWN
deriving DecidableEq, Fintype

open pni_protocol_type

/-- The literal SASL protocol header of sasl.c line 75 and spec section 6:
"AMQP" followed by 0x03 0x01 0x00 0x00, as byte values. -/
def SASL_HEADER_BYTES : List Nat := [0x41, 0x4D, 0x51, 0x50, 0x03, 0x01, 0x00, 0x00]

/-- Modelled from the spec: the plain AMQP 1.0 header, "AMQP" followed by
0x00 0x01 0x00 0x00 (spec section 6: four bytes identifying variant and
version, SASL variant byte 0x03; variant 0x00 is bare AMQP). -/
def AMQP_HEADER_BYTES : List Nat := [0x41, 0x4D, 0x51, 0x50, 0x00, 0x01, 0x00, 0x00]

/-- Modelled from the spec: the AMQP TLS-layer header, "AMQP" followed by
0x02 0x01 0x00 0x00 (spec section 4.3 lists AMQP-TLS as a classification;
variant byte 0x02). -/
def TLS_HEADER_BYTES : List Nat := [0x41, 0x4D, 0x51, 0x50, 0x02, 0x01, 0x00, 0x00]

/-- Modelled from the spec: pni_sniff_header (transport/autodetect.c, not
under src/).  Spec section 4.3: read exactly 8 bytes and classify them as
AMQP, AMQP-SASL, AMQP-TLS, insufficient (fewer than 8 bytes that are still
consistent with a known header), or other. -/
def pni_sniff_header (bytes : List Nat) : pni_protocol_type :=
  if 8 ≤ bytes.length then
    if bytes.take 8 = SASL_HEADER_BYTES then PNI_PROTOCOL_AMQP_SASL
    else if bytes.take 8 = AMQP_HEADER_BYTES then PNI_PROTOCOL_AMQP1
    else if bytes.take 8 = TLS_HEADER_BYTES then PNI_PROTOCOL_AMQP_SSL
    else PNI_PROTOCOL_UNKNOWN
  else
    if [SASL_HEADER_BYTES, AMQP_HEADER_BYTES, TLS_HEADER_BYTES].any
        (fun h => bytes = h.take bytes.length) then
      PNI_PROTOCOL_INSUFFICIENT
    else PNI_PROTOCOL_UNKNOWN

/-- Modelled from the spec: pni_protocol_name (transport/autodetect.c, not
under src/); a human-readable name per classification, interpolated into
the framing-error description. -/
def pni_protocol_name : pni_protocol_type → String
  | PNI_PROTOCOL_INSUFFICIENT => "Insufficient data to determine protocol"
  | PNI_PROTOCOL_AMQP1 => "AMQP"
  | PNI_PROTOCOL_AMQP_SASL => "SASL"
  | PNI_PROTOCOL_AMQP_SSL => "AMQP TLS"
  | PNI_PROTOCOL_UNKNOWN => "Unknown protocol"

/-- A hexadecimal digit character. -/
def hexDigitChar (n : Nat) : Char :=
  if n < 10 then Char.ofNat (48 + n) else Char.ofNat (87 + n)

/-- Modelled from the spec: pn_quote_data (util.c, not under src/); spec
section 4.3 calls it "a quoted hexadecimal rendering of the bad bytes":
printable ASCII bytes are kept and every other byte is rendered as a
backslash-x hexadecimal escape. -/
def pn_quote_data (bytes : List Nat) : String :=
  String.mk (bytes.foldr
    (fun b acc =>
      (if 32 ≤ b ∧ b ≤ 126 then [Char.ofNat b]
       else ['\\', 'x', hexDigitChar (b / 16 % 16), hexDigitChar (b % 16)]) ++ acc)
    [])

/-- The four statically allocated SASL io-layer descriptors of sasl.c lines
47-73; a transport's io_layers slot points at one of them (pni_passthru
stands for the passthru layer the slot is later rewritten to). -/
inductive IoLayerTag where
  | sasl_header_layer
  | sasl_write_header_layer
  | sasl_read_header_layer
  | sasl_layer
  | pni_passthru_layer
deriving DecidableEq, Fintype

/-- The transport error pn_do_error records: condition name and formatted
description. -/
structure ErrInfo where
  condition : String
  description : String
deriving DecidableEq

/-- Return value of an input processor: a consumed byte count, or PN_EOS. -/
inductive ReadRet where
  | consumed (n : Nat)
  | eos
deriving DecidableEq

/-- Result of pn_input_read_sasl_header: return value, the io_layers slot
after the call, close_sent after the call, and the transport error raised
by pn_do_error, if any. -/
structure ReadHeaderResult where
  ret : ReadRet
  layer : IoLayerTag
  close_sent : Bool
  error : Option ErrInfo
deriving DecidableEq

/-- The description pn_do_error formats at sasl.c lines 102-104:
`"%s header mismatch: %s ['%s']%s"` applied to "SASL", the protocol name,
the quoted bytes, and " (connection aborted)" when the transport is at
EOS. -/
def mismatchDescription (protocol : pni_protocol_type) (bytes : List Nat)
    (eos : Bool) : String :=
  "SASL" ++ " header mismatch: " ++ pni_protocol_name protocol ++ " ['"
    ++ pn_quote_data bytes ++ "']" ++ (if eos then " (connection aborted)" else "")

/-- sasl.c pn_input_read_sasl_header (lines 78-107).  `eos` is
`pn_transport_capacity(transport) == PN_EOS`; `layer` is the current value
of the transport's io_layers slot; `close_sent` its flag before the call.
On AMQP_SASL the slot is rewritten (sasl_read_header_layer becomes
sasl_layer, anything else becomes sasl_write_header_layer) and 8 bytes are
consumed.  On INSUFFICIENT with the transport not at EOS, zero bytes are
consumed.  Otherwise close_sent is set, a framing error is raised and the
call returns PN_EOS.  (The external pni_sasl_set_external_security and
pn_set_error_layer side effects are outside this model.) -/
def pn_input_read_sasl_header (layer : IoLayerTag) (close_sent : Bool) (eos : Bool)
    (bytes : List Nat) : ReadHeaderResult :=
  match pni_sniff_header bytes with
  | PNI_PROTOCOL_AMQP_SASL =>
      ⟨ReadRet.consumed 8,
        (if layer = IoLayerTag.sasl_read_header_layer then IoLayerTag.sasl_layer
         else IoLayerTag.sasl_write_header_layer),
        close_sent, none⟩
  | PNI_PROTOCOL_INSUFFICIENT =>
      if eos then
        ⟨ReadRet.eos, layer, true,
          some ⟨"amqp:connection:framing-error",
            mismatchDescription PNI_PROTOCOL_INSUFFICIENT bytes eos⟩⟩
      else ⟨ReadRet.consumed 0, layer, close_sent, none⟩
  | p =>
      ⟨ReadRet.eos, layer, true,
        some ⟨"amqp:connection:framing-error", mismatchDescription p bytes eos⟩⟩

/-- Modelled from the spec: a proton error condition as the C++ binding
sees it (name and description); `error_condition` itself lives outside
src/. -/
structure error_condition where
  name : String
  description : String
deriving DecidableEq

/-- Modelled from the spec: the connection-driver state the
connection_driver.cpp methods touch: the transport condition
(`pn_condition_is_set` is `isSome`) and the two closed halves. -/
structure driver_t where
  condition : Option error_condition
  read_closed : Bool
  write_closed : Bool
deriving DecidableEq

/-- Modelled from the spec: pn_connection_driver_close (connection_driver.c,
not under src/); spec sections 4.1 and 5: "closes both halves". -/
def pn_connection_driver_close (d : driver_t) : driver_t :=
  { d with read_closed := true, write_closed := true }

/-- connection_driver.cpp connection_driver::disconnected (lines 146-152):
set the transport condition when none is set (set_error_condition copies
the argument into it), then close the driver. -/
def connection_driver_disconnected (d : driver_t) (err : error_condition) : driver_t :=
  let d1 := if d.condition.isSome then d else { d with condition := some err }
  pn_connection_driver_close d1

/-- Spec-side reading of the kept symbols of a MECHANISMS receipt: those
matching the allow-list (every symbol when the list is absent). -/
def specKept (included : Option String) (symbols : List String) : List String :=
  symbols.filter (fun s =>
    match included with
    | none => true
    | some l => matchesAllowList l.data s.data)

/-- A fresh client-role SASL context, as pn_sasl creates it (sasl.c lines
356-388) on a client transport: both states NONE, outcome NONE, no strings
set. -/
def exClientCtx : pni_sasl_t :=
  { client := true
    selected_mechanism := none
    included_mechanisms := none
    outcome := PN_SASL_NONE
    bytes_out := ""
    last_state := SASL_NONE
    desired_state := SASL_NONE
    input_bypass := false
    output_bypass := false }

/-- A server-role SASL context about to post its first CHALLENGE: the
backend wrote "ch" into bytes_out and the desired state was raised to
POSTED_CHALLENGE while last_state is still NONE. -/
def exServerCtx : pni_sasl_t :=
  { client := false
    selected_mechanism := none
    included_mechanisms := none
    outcome := PN_SASL_NONE
    bytes_out := "ch"
    last_state := SASL_NONE
    desired_state := SASL_POSTED_CHALLENGE
    input_bypass := false
    output_bypass := false }

/-- A client-role context that has already posted INIT and one RESPONSE
(mid multi-round negotiation): last_state and desired_state both
POSTED_RESPONSE, response payload "r2" pending in bytes_out. -/
def exRespCtx : pni_sasl_t :=
  { client := true
    selected_mechanism := some "SCRAM-SHA-1"
    included_mechanisms := none
    outcome := PN_SASL_NONE
    bytes_out := "r2"
    last_state := SASL_POSTED_RESPONSE
    desired_state := SASL_POSTED_RESPONSE
    input_bypass := false
    output_bypass := false }

/-- A server-role context that has already posted MECHANISMS and one
CHALLENGE: last_state and desired_state both POSTED_CHALLENGE, challenge
payload "c2" pending in bytes_out. -/
def exChalCtx : pni_sasl_t :=
  { client := false
    selected_mechanism := none
    included_mechanisms := none
    outcome := PN_SASL_NONE
    bytes_out := "c2"
    last_state := SASL_POSTED_CHALLENGE
    desired_state := SASL_POSTED_CHALLENGE
    input_bypass := false
    output_bypass := false }

/-- A fresh client context whose application set the allow-list
"PLAIN ANONYMOUS" (spec scenario 6). -/
def exAllowCtx : pni_sasl_t :=
  { client := true
    selected_mechanism := none
    included_mechanisms := some "PLAIN ANONYMOUS"
    outcome := PN_SASL_NONE
    bytes_out := ""
    last_state := SASL_NONE
    desired_state := SASL_NONE
    input_bypass := false
    output_bypass := false }

/-- A backend mechanism list of seventeen space separated mechanisms, all
passing the absent allow-list. -/
def seventeenMechs : String :=
  "m01 m02 m03 m04 m05 m06 m07 m08 m09 m10 m11 m12 m13 m14 m15 m16 m17"

/-- A driver with no condition set and both halves open. -/
def exOpenDriver : driver_t :=
  { condition := none, read_closed := false, write_closed := false }

/-! Helper lemmas shared by the claim theorems. -/

theorem stateVal_inj : ∀ a b : pni_sasl_state, stateVal a = stateVal b → a = b := by
  decide

theorem setDesiredCore_none_iff :
    ∀ (c : Bool) (last s : pni_sasl_state),
      setDesiredCore c last s = none ↔
        (stateVal s < stateVal last ∨ roleLegal c s = false) := by
  decide

theorem setDesiredCore_keeps_last_legal :
    ∀ (c : Bool) (last s : pni_sasl_state),
      roleLegal c last = true →
      roleLegal c ((setDesiredCore c last s).getD last) = true := by
  decide

theorem setDesiredCore_some_legal :
    ∀ (c : Bool) (last s : pni_sasl_state),
      (setDesiredCore c last s).isSome = true → roleLegal c s = true := by
  decide

theorem setDesiredCore_decrease :
    ∀ (c : Bool) (last s : pni_sasl_state),
      stateVal ((setDesiredCore c last s).getD last) < stateVal last →
        (s = SASL_POSTED_RESPONSE ∧ last = SASL_POSTED_RESPONSE) ∨
        (s = SASL_POSTED_CHALLENGE ∧ last = SASL_POSTED_CHALLENGE) := by
  decide

/-- Claim C1: pni_sasl_set_desired_state applies the requested state only
when it is not below last_state and is legal for the context's role; a
downgrade or a role violation only logs and leaves the context (in
particular last_state and desired_state) unchanged; and the call preserves
role legality of both last_state and desired_state, so a client-role
context never comes to hold a server-only state and symmetrically. -/
theorem sasl_set_desired_state_role_invariant (sasl : pni_sasl_t) (s : pni_sasl_state) :
    ((stateVal s < stateVal sasl.last_state ∨ roleLegal sasl.client s = false) →
      (pni_sasl_set_desired_state sasl s).sasl = sasl ∧
      (pni_sasl_set_desired_state sasl s).logged = true) ∧
    (stateVal sasl.last_state ≤ stateVal s → roleLegal sasl.client s = true →
      (pni_sasl_set_desired_state sasl s).sasl.desired_state = s ∧
      (pni_sasl_set_desired_state sasl s).logged = false) ∧
    (roleLegal sasl.client sasl.last_state = true →
      roleLegal sasl.client (pni_sasl_set_desired_state sasl s).sasl.last_state = true) ∧
    (roleLegal sasl.client sasl.desired_state = true →
      roleLegal sasl.client (pni_sasl_set_desired_state sasl s).sasl.desired_state
        = true) := by
  refine ⟨?_, ?_, ?_, ?_⟩
  · intro h
    have hn : setDesiredCore sasl.client sasl.last_state s = none :=
      (setDesiredCore_none_iff _ _ _).mpr h
    simp [pni_sasl_set_desired_state, hn]
  · intro h1 h2
    rcases ho : setDesiredCore sasl.client sasl.last_state s with _ | l
    · rcases (setDesiredCore_none_iff _ _ _).mp ho with h | h
      · omega
      · rw [h2] at h; exact absurd h (by simp)
    · simp [pni_sasl_set_desired_state, ho]
  · intro h
    rcases ho : setDesiredCore sasl.client sasl.last_state s with _ | l
    · simp [pni_sasl_set_desired_state, ho, h]
    · have := setDesiredCore_keeps_last_legal sasl.client sasl.last_state s h
      rw [ho] at this
      simpa [pni_sasl_set_desired_state, ho] using this
  · intro h
    rcases ho : setDesiredCore sasl.client sasl.last_state s with _ | l
    · simp [pni_sasl_set_desired_state, ho, h]
    · have := setDesiredCore_some_legal sasl.client sasl.last_state s (by rw [ho]; rfl)
      simp [pni_sasl_set_desired_state, ho, this]

/-- Witness for C1: on a fresh client context, requesting the server-only
POSTED_MECHANISMS is dropped unchanged, and requesting POSTED_INIT is
applied. -/
theorem sasl_set_desired_state_role_invariant_witness :
    (pni_sasl_set_desired_state exClientCtx SASL_POSTED_MECHANISMS).sasl = exClientCtx ∧
    (pni_sasl_set_desired_state exClientCtx SASL_POSTED_INIT).sasl.desired_state
      = SASL_POSTED_INIT :=
  ⟨((sasl_set_desired_state_role_invariant exClientCtx SASL_POSTED_MECHANISMS).1
      (Or.inr (by decide))).1,
   ((sasl_set_desired_state_role_invariant exClientCtx SASL_POSTED_INIT).2.1
      (by decide) (by decide)).1⟩

/-- Claim C3: requesting POSTED_RESPONSE while last_state is already
POSTED_RESPONSE rewinds last_state to POSTED_INIT, requesting
POSTED_CHALLENGE while last_state is already POSTED_CHALLENGE rewinds
last_state to POSTED_MECHANISMS; these are the only transitions of
pni_sasl_set_desired_state in which last_state decreases; and after the
rewind pni_post_sasl_frame posts the RESPONSE (resp. CHALLENGE) frame
again. -/
theorem sasl_repeat_rewind (sasl : pni_sasl_t) (mechlist : Option String) :
    (sasl.client = true → sasl.last_state = SASL_POSTED_RESPONSE →
      (pni_sasl_set_desired_state sasl SASL_POSTED_RESPONSE).sasl.last_state
          = SASL_POSTED_INIT ∧
      (pni_sasl_set_desired_state sasl SASL_POSTED_RESPONSE).sasl.desired_state
          = SASL_POSTED_RESPONSE ∧
      (pni_post_sasl_frame (pni_sasl_set_desired_state sasl SASL_POSTED_RESPONSE).sasl
          mechlist).2 = [SaslFrame.response sasl.bytes_out]) ∧
    (sasl.client = false → sasl.last_state = SASL_POSTED_CHALLENGE →
      (pni_sasl_set_desired_state sasl SASL_POSTED_CHALLENGE).sasl.last_state
          = SASL_POSTED_MECHANISMS ∧
      (pni_sasl_set_desired_state sasl SASL_POSTED_CHALLENGE).sasl.desired_state
          = SASL_POSTED_CHALLENGE ∧
      (pni_post_sasl_frame (pni_sasl_set_desired_state sasl SASL_POSTED_CHALLENGE).sasl
          mechlist).2 = [SaslFrame.challenge sasl.bytes_out]) ∧
    (∀ s, stateVal (pni_sasl_set_desired_state sasl s).sasl.last_state
        < stateVal sasl.last_state →
      (s = SASL_POSTED_RESPONSE ∧ sasl.last_state = SASL_POSTED_RESPONSE) ∨
      (s = SASL_POSTED_CHALLENGE ∧ sasl.last_state = SASL_POSTED_CHALLENGE)) := by
  refine ⟨?_, ?_, ?_⟩
  · intro hc hl
    have hcore : setDesiredCore sasl.client sasl.last_state SASL_POSTED_RESPONSE
        = some SASL_POSTED_INIT := by rw [hc, hl]; decide
    have h1 : pni_sasl_set_desired_state sasl SASL_POSTED_RESPONSE =
        ⟨{ sasl with
            last_state := SASL_POSTED_INIT
            desired_state := SASL_POSTED_RESPONSE }, false, true⟩ := by
      simp [pni_sasl_set_desired_state, hcore]
    rw [h1]
    refine ⟨rfl, rfl, ?_⟩
    simp [pni_post_sasl_frame, drainLoop, resolveTarget, frameFor, stateVal]
  · intro hc hl
    have hcore : setDesiredCore sasl.client sasl.last_state SASL_POSTED_CHALLENGE
        = some SASL_POSTED_MECHANISMS := by rw [hc, hl]; decide
    have h1 : pni_sasl_set_desired_state sasl SASL_POSTED_CHALLENGE =
        ⟨{ sasl with
            last_state := SASL_POSTED_MECHANISMS
            desired_state := SASL_POSTED_CHALLENGE }, false, true⟩ := by
      simp [pni_sasl_set_desired_state, hcore]
    rw [h1]
    refine ⟨rfl, rfl, ?_⟩
    simp [pni_post_sasl_frame, drainLoop, resolveTarget, frameFor, stateVal]
  · intro s hdec
    have hproj : (pni_sasl_set_desired_state sasl s).sasl.last_state
        = (setDesiredCore sasl.client sasl.last_state s).getD sasl.last_state := by
      rcases ho : setDesiredCore sasl.client sasl.last_state s with _ | l <;>
        simp [pni_sasl_set_desired_state, ho]
    rw [hproj] at hdec
    exact setDesiredCore_decrease sasl.client sasl.last_state s hdec

/-- Witness for C3: a client that already posted a RESPONSE and is asked
for another one is rewound to POSTED_INIT and posts the new RESPONSE
frame; a server mid repeated CHALLENGE behaves symmetrically. -/
theorem sasl_repeat_rewind_witness :
    ((pni_sasl_set_desired_state exRespCtx SASL_POSTED_RESPONSE).sasl.last_state
        = SASL_POSTED_INIT ∧
      (pni_sasl_set_desired_state exRespCtx SASL_POSTED_RESPONSE).sasl.desired_state
        = SASL_POSTED_RESPONSE ∧
      (pni_post_sasl_frame (pni_sasl_set_desired_state exRespCtx
          SASL_POSTED_RESPONSE).sasl none).2 = [SaslFrame.response "r2"]) ∧
    ((pni_sasl_set_desired_state exChalCtx SASL_POSTED_CHALLENGE).sasl.last_state
        = SASL_POSTED_MECHANISMS ∧
      (pni_sasl_set_desired_state exChalCtx SASL_POSTED_CHALLENGE).sasl.desired_state
        = SASL_POSTED_CHALLENGE ∧
      (pni_post_sasl_frame (pni_sasl_set_desired_state exChalCtx
          SASL_POSTED_CHALLENGE).sasl none).2 = [SaslFrame.challenge "c2"]) :=
  ⟨(sasl_repeat_rewind exRespCtx none).1 rfl rfl,
   (sasl_repeat_rewind exChalCtx none).2.1 rfl rfl⟩

/-- Counterexample to C8 as stated: on a fresh client context, requesting
the server-only POSTED_MECHANISMS is a role violation; the C code logs it
and returns without ever reaching the pni_emit call at sasl.c line 284, so
no PN_TRANSPORT event is emitted for this call. -/
theorem set_desired_state_role_violation_no_emit :
    (pni_sasl_set_desired_state exClientCtx SASL_POSTED_MECHANISMS).emitted = false ∧
    (pni_sasl_set_desired_state exClientCtx SASL_POSTED_MECHANISMS).logged = true := by
  decide

/-- Claim C8 amended: pni_sasl_set_desired_state invokes pni_emit (which
posts a PN_TRANSPORT event when a collector is attached) exactly when the
requested transition is applied, that is when the request is neither a
downgrade nor a role violation; a dropped request is logged and emits
nothing. -/
theorem set_desired_state_emits_iff_applied (sasl : pni_sasl_t) (s : pni_sasl_state) :
    (pni_sasl_set_desired_state sasl s).emitted =
      (decide (stateVal sasl.last_state ≤ stateVal s) && roleLegal sasl.client s) ∧
    (pni_sasl_set_desired_state sasl s).logged =
      !(pni_sasl_set_desired_state sasl s).emitted := by
  rcases ho : setDesiredCore sasl.client sasl.last_state s with _ | l
  · rcases (setDesiredCore_none_iff _ _ _).mp ho with h | h
    · simp [pni_sasl_set_desired_state, ho]
      omega
    · simp [pni_sasl_set_desired_state, ho, h]
  · have hlegal := setDesiredCore_some_legal sasl.client sasl.last_state s
      (by rw [ho]; rfl)
    have hle : ¬ (stateVal s < stateVal sasl.last_state) := by
      intro hlt
      have : setDesiredCore sasl.client sasl.last_state s = none :=
        (setDesiredCore_none_iff _ _ _).mpr (Or.inl hlt)
      rw [ho] at this
      exact absurd this (by simp)
    simp [pni_sasl_set_desired_state, ho, hlegal]
    omega

/-- Claim C9: connection_driver::disconnected sets the transport condition
only when none is set, then closes the driver; a second disconnected call
leaves the driver state exactly as after the first, and the recorded
condition is the one of the first call. -/
theorem connection_driver_disconnected_idempotent (d : driver_t)
    (e1 e2 : error_condition) :
    connection_driver_disconnected (connection_driver_disconnected d e1) e2 =
      connection_driver_disconnected d e1 ∧
    (d.condition = none →
      (connection_driver_disconnected d e1).condition = some e1) ∧
    (∀ c, d.condition = some c →
      (connection_driver_disconnected d e1).condition = some c) ∧
    (connection_driver_disconnected d e1).read_closed = true ∧
    (connection_driver_disconnected d e1).write_closed = true := by
  obtain ⟨cond, r, w⟩ := d
  cases cond <;>
    simp [connection_driver_disconnected, pn_connection_driver_close]

/-- Witness for C9: on a driver with no condition set, the first call
records its condition and both halves are closed. -/
theorem connection_driver_disconnected_idempotent_witness :
    (connection_driver_disconnected exOpenDriver ⟨"amqp:resource-limit-exceeded", "x"⟩
      ).condition = some ⟨"amqp:resource-limit-exceeded", "x"⟩ ∧
    (connection_driver_disconnected exOpenDriver ⟨"amqp:resource-limit-exceeded", "x"⟩
      ).read_closed = true :=
  ⟨(connection_driver_disconnected_idempotent exOpenDriver
      ⟨"amqp:resource-limit-exceeded", "x"⟩ ⟨"other", "y"⟩).2.1 rfl,
   (connection_driver_disconnected_idempotent exOpenDriver
      ⟨"amqp:resource-limit-exceeded", "x"⟩ ⟨"other", "y"⟩).2.2.2.1⟩

/-- Claim C10: with a null public SASL handle, pn_sasl_outcome returns
PN_SASL_NONE and pn_sasl_done changes no state; both are total on the null
handle (get_sasl_internal NULL-checks before dereferencing). -/
theorem pn_sasl_null_handle_total (outcome : pn_sasl_outcome_t) :
    pn_sasl_outcome none = PN_SASL_NONE ∧
    pn_sasl_done none outcome = none ∧
    get_sasl_internal none = none :=
  ⟨rfl, rfl, rfl⟩

/-- Witness for C10 at the concrete outcome PN_SASL_OK. -/
theorem pn_sasl_null_handle_total_witness :
    pn_sasl_outcome none = PN_SASL_NONE ∧ pn_sasl_done none PN_SASL_OK = none :=
  ⟨(pn_sasl_null_handle_total PN_SASL_OK).1, (pn_sasl_null_handle_total PN_SASL_OK).2.1⟩

theorem stateVal_le_seven : ∀ s : pni_sasl_state, stateVal s ≤ 7 := by
  decide

theorem resolveTarget_gt :
    ∀ (last d : pni_sasl_state) (o : pn_sasl_outcome_t),
      stateVal last < stateVal d → stateVal last < stateVal (resolveTarget last d o) := by
  decide

theorem resolveTarget_le :
    ∀ (last d : pni_sasl_state) (o : pn_sasl_outcome_t),
      stateVal last < stateVal d → stateVal (resolveTarget last d o) ≤ stateVal d := by
  decide

/-- The pni_post_sasl_frame loop terminates with last_state equal to the
desired state: each iteration strictly raises last_state toward it. -/
theorem drainLoop_reaches (sasl : pni_sasl_t) (mechlist : Option String) :
    ∀ (fuel : Nat) (last : pni_sasl_state),
      stateVal sasl.desired_state - stateVal last ≤ fuel →
      stateVal last ≤ stateVal sasl.desired_state →
      (drainLoop sasl mechlist fuel last).1 = sasl.desired_state := by
  intro fuel
  induction fuel with
  | zero =>
    intro last h1 h2
    have hv : stateVal last = stateVal sasl.desired_state := by omega
    have he := stateVal_inj _ _ hv
    simp [drainLoop, he]
  | succ fuel ih =>
    intro last h1 h2
    by_cases hlt : stateVal sasl.desired_state > stateVal last
    · have hg := resolveTarget_gt last sasl.desired_state sasl.outcome hlt
      have hle := resolveTarget_le last sasl.desired_state sasl.outcome hlt
      have hrec := ih (resolveTarget last sasl.desired_state sasl.outcome)
        (by omega) (by omega)
      simp [drainLoop, hlt, hrec]
    · have hv : stateVal last = stateVal sasl.desired_state := by omega
      have he := stateVal_inj _ _ hv
      simp [drainLoop, hlt, he]

/-- Claim C2: pni_post_sasl_frame drains last_state toward desired_state
one step at a time, posting the frame declared for each target state; a
target with an unmet prerequisite first passes through the prerequisite's
own target (POSTED_CHALLENGE and POSTED_OUTCOME through POSTED_MECHANISMS,
PRETEND_OUTCOME through POSTED_INIT, RECVED_OUTCOME with outcome OK through
POSTED_INIT); and the loop terminates with last_state equal to
desired_state, every other field unchanged. -/
theorem pni_post_sasl_frame_drains_to_desired (sasl : pni_sasl_t)
    (mechlist : Option String)
    (h : stateVal sasl.last_state ≤ stateVal sasl.desired_state) :
    (pni_post_sasl_frame sasl mechlist).1 =
      { sasl with last_state := sasl.desired_state } ∧
    (sasl.desired_state = SASL_POSTED_INIT → sasl.last_state = SASL_NONE →
      (pni_post_sasl_frame sasl mechlist).2 =
        [SaslFrame.init sasl.selected_mechanism sasl.bytes_out]) ∧
    (sasl.desired_state = SASL_POSTED_MECHANISMS →
      stateVal sasl.last_state < stateVal SASL_POSTED_MECHANISMS →
      (pni_post_sasl_frame sasl mechlist).2 =
        [SaslFrame.mechanisms (postedMechs sasl.included_mechanisms mechlist)]) ∧
    (sasl.desired_state = SASL_POSTED_RESPONSE →
      stateVal sasl.last_state < stateVal SASL_POSTED_RESPONSE →
      (pni_post_sasl_frame sasl mechlist).2 = [SaslFrame.response sasl.bytes_out]) ∧
    (sasl.desired_state = SASL_POSTED_CHALLENGE →
      stateVal sasl.last_state < stateVal SASL_POSTED_MECHANISMS →
      (pni_post_sasl_frame sasl mechlist).2 =
        [SaslFrame.mechanisms (postedMechs sasl.included_mechanisms mechlist),
         SaslFrame.challenge sasl.bytes_out]) ∧
    (sasl.desired_state = SASL_POSTED_CHALLENGE →
      sasl.last_state = SASL_POSTED_MECHANISMS →
      (pni_post_sasl_frame sasl mechlist).2 = [SaslFrame.challenge sasl.bytes_out]) ∧
    (sasl.desired_state = SASL_POSTED_OUTCOME →
      stateVal sasl.last_state < stateVal SASL_POSTED_MECHANISMS →
      (pni_post_sasl_frame sasl mechlist).2 =
        [SaslFrame.mechanisms (postedMechs sasl.included_mechanisms mechlist),
         SaslFrame.outcome sasl.outcome]) ∧
    (sasl.desired_state = SASL_PRETEND_OUTCOME →
      stateVal sasl.last_state < stateVal SASL_POSTED_INIT →
      (pni_post_sasl_frame sasl mechlist).2 =
        [SaslFrame.init sasl.selected_mechanism sasl.bytes_out]) ∧
    (sasl.desired_state = SASL_RECVED_OUTCOME → sasl.outcome = PN_SASL_OK →
      stateVal sasl.last_state < stateVal SASL_POSTED_INIT →
      (pni_post_sasl_frame sasl mechlist).2 =
        [SaslFrame.init sasl.selected_mechanism sasl.bytes_out]) ∧
    (sasl.desired_state = SASL_RECVED_OUTCOME → sasl.outcome ≠ PN_SASL_OK →
      (pni_post_sasl_frame sasl mechlist).2 = []) := by
  obtain ⟨c, sm, im, oc, bo, ls, ds, ib, ob⟩ := sasl
  simp only at h
  refine ⟨?_, ?_, ?_, ?_, ?_, ?_, ?_, ?_, ?_, ?_⟩
  · have hb := stateVal_le_seven ds
    have := drainLoop_reaches ⟨c, sm, im, oc, bo, ls, ds, ib, ob⟩ mechlist 8 ls
      (by simp only; omega) (by simp only; omega)
    simp [pni_post_sasl_frame, this]
  · intro hd hl
    subst hd; subst hl
    simp [pni_post_sasl_frame, drainLoop, resolveTarget, frameFor, stateVal]
  · intro hd hl
    subst hd
    cases ls <;> simp_all [stateVal] <;>
      simp [pni_post_sasl_frame, drainLoop, resolveTarget, frameFor, stateVal]
  · intro hd hl
    subst hd
    cases ls <;> simp_all [stateVal] <;>
      simp [pni_post_sasl_frame, drainLoop, resolveTarget, frameFor, stateVal]
  · intro hd hl
    subst hd
    cases ls <;> simp_all [stateVal] <;>
      simp [pni_post_sasl_frame, drainLoop, resolveTarget, frameFor, stateVal]
  · intro hd hl
    subst hd; subst hl
    simp [pni_post_sasl_frame, drainLoop, resolveTarget, frameFor, stateVal]
  · intro hd hl
    subst hd
    cases ls <;> simp_all [stateVal] <;>
      simp [pni_post_sasl_frame, drainLoop, resolveTarget, frameFor, stateVal]
  · intro hd hl
    subst hd
    cases ls <;> simp_all [stateVal];
      simp [pni_post_sasl_frame, drainLoop, resolveTarget, frameFor, stateVal]
  · intro hd ho hl
    subst hd; subst ho
    cases ls <;> simp_all [stateVal];
      simp [pni_post_sasl_frame, drainLoop, resolveTarget, frameFor, stateVal]
  · intro hd ho
    subst hd
    cases ls <;> simp_all [stateVal] <;>
      cases oc <;>
        simp_all [pni_post_sasl_frame, drainLoop, resolveTarget, frameFor, stateVal]

/-- Witness for C2: a server with last_state NONE draining to
POSTED_CHALLENGE first passes through POSTED_MECHANISMS, posts both frames,
and ends with last_state equal to the desired state. -/
theorem pni_post_sasl_frame_drains_to_desired_witness :
    (pni_post_sasl_frame exServerCtx none).1 =
      { exServerCtx with last_state := SASL_POSTED_CHALLENGE } ∧
    (pni_post_sasl_frame exServerCtx none).2 =
      [SaslFrame.mechanisms [], SaslFrame.challenge "ch"] :=
  ⟨(pni_post_sasl_frame_drains_to_desired exServerCtx none (by decide)).1,
   ((pni_post_sasl_frame_drains_to_desired exServerCtx none (by decide)).2.2.2.2.1
      rfl (by decide)).trans (by decide)⟩

theorem dropWord_length :
    ∀ (c c2 : List Char), dropWord c = some c2 → c2.length < c.length := by
  intro c
  induction c with
  | nil => intro c2 hc; simp [dropWord] at hc
  | cons a rest ih =>
    intro c2 hc
    by_cases ha : a = ' '
    · simp [dropWord, ha] at hc
      subst hc; simp
    · simp [dropWord, ha] at hc
      have := ih c2 hc
      simp only [List.length_cons]
      omega

theorem mem_spaceSuffixes_length :
    ∀ (fuel : Nat) (c x : List Char), x ∈ spaceSuffixes fuel c → x.length < c.length := by
  intro fuel
  induction fuel with
  | zero => intro c x hx; simp [spaceSuffixes] at hx
  | succ fuel ih =>
    intro c x hx
    rcases hd : dropWord c with _ | c2
    · simp [spaceSuffixes, hd] at hx
    · rw [spaceSuffixes, hd] at hx
      rcases List.mem_cons.mp hx with rfl | hx
      · exact dropWord_length c x hd
      · exact Nat.lt_trans (ih c2 x hx) (dropWord_length c c2 hd)

/-- The cursor scan of pni_included_mech agrees with the candidate-position
reading: the symbol is found exactly when some space-delimited candidate
position matches it. -/
theorem inclLoop_eq_any (s : List Char) :
    ∀ (fuel : Nat) (c : List Char), c.length < fuel →
      inclLoop s fuel c = (c :: spaceSuffixes fuel c).any (fun cand => candOk s cand) := by
  intro fuel
  induction fuel with
  | zero => intro c hc; omega
  | succ fuel ih =>
    intro c hc
    by_cases hlen : s.length > c.length
    · have hcand : candOk s c = false := by
        unfold candOk
        rw [decide_eq_false (by omega)]
        simp
      have hall : ∀ x ∈ spaceSuffixes (fuel + 1) c, candOk s x = false := by
        intro x hx
        have hxl := mem_spaceSuffixes_length (fuel + 1) c x hx
        unfold candOk
        rw [decide_eq_false (by omega)]
        simp
      rw [inclLoop]
      rw [if_pos hlen]
      symm
      rw [List.any_eq_false]
      intro x hx
      rcases List.mem_cons.mp hx with rfl | hx
      · simp [hcand]
      · simp [hall x hx]
    · have hA : decide (s.length ≤ c.length) = true := decide_eq_true (by omega)
      have hcandc : candOk s c
          = (ciEq s (c.take s.length) && boundaryOk (c.drop s.length)) := by
        unfold candOk
        rw [hA]
        simp
      by_cases hB : (ciEq s (c.take s.length) && boundaryOk (c.drop s.length)) = true
      · rw [inclLoop]
        rw [if_neg hlen, if_pos hB]
        simp [hcandc, hB]
      · rcases hd : dropWord c with _ | c2
        · rw [inclLoop, if_neg hlen, if_neg hB, spaceSuffixes, hd]
          simp [hcandc, hB]
        · have hlt : c2.length < fuel := by
            have := dropWord_length c c2 hd
            omega
          have hBf : (ciEq s (c.take s.length) && boundaryOk (c.drop s.length))
              = false := by simpa using hB
          rw [inclLoop, if_neg hlen, if_neg hB, spaceSuffixes, hd]
          simp [ih c2 hlt, hcandc, hBf]

/-- pni_included_mech agrees with the spec-side allow-list predicate. -/
theorem pni_included_mech_matches (l s : String) :
    pni_included_mech (some l) s = matchesAllowList l.data s.data := by
  unfold pni_included_mech matchesAllowList allowListCandidates
  exact inclLoop_eq_any s.data (l.data.length + 1) l.data (by omega)

theorem kept_eq_specKept (incl : Option String) (symbols : List String) :
    symbols.filter (fun s => pni_included_mech incl s) = specKept incl symbols := by
  unfold specKept
  apply List.filter_congr
  intro x _
  cases incl with
  | none => rfl
  | some l => exact pni_included_mech_matches l x

theorem spaceJoin_cons_cons (s t : String) (ts : List String) :
    spaceJoin (s :: t :: ts) = s.data ++ ' ' :: spaceJoin (t :: ts) := rfl

/-- Appending a space after every string and trimming the final character
is exactly the space-separated concatenation. -/
theorem trim_eq_spaceJoin :
    ∀ l : List String,
      ((l.map (fun s => s.data ++ [' '])).foldr (· ++ ·) []).dropLast = spaceJoin l := by
  intro l
  induction l with
  | nil => simp [spaceJoin]
  | cons s rest ih =>
    cases rest with
    | nil => simp [spaceJoin, List.dropLast_concat]
    | cons t ts =>
      have hne : (((t :: ts).map (fun s => s.data ++ [' '])).foldr (· ++ ·) []) ≠ [] := by
        simp
      rw [List.map_cons, List.foldr_cons]
      rw [List.dropLast_append_of_ne_nil _ hne]
      rw [ih]
      rw [spaceJoin_cons_cons]
      simp

theorem setDesiredCore_client_init :
    ∀ last : pni_sasl_state, stateVal last ≤ stateVal SASL_POSTED_INIT →
      setDesiredCore true last SASL_POSTED_INIT = some last := by
  decide

theorem setDesiredCore_client_recved :
    ∀ last : pni_sasl_state, stateVal last ≤ stateVal SASL_RECVED_OUTCOME →
      setDesiredCore true last SASL_RECVED_OUTCOME = some last := by
  decide

/-- Claim C5: a client in PRETEND_OUTCOME ignores a received MECHANISMS
frame; otherwise each advertised symbol is kept exactly when it matches the
allow-list case-insensitively with space or end-of-string as delimiter
(every symbol kept when the list is absent), the kept symbols are offered to
the backend space-separated with the trailing separator trimmed; on backend
success the desired state becomes POSTED_INIT, on failure the outcome
becomes PERM and the desired state RECVED_OUTCOME; and the spec's concrete
scenario 6 offers exactly "PLAIN ANONYMOUS". -/
theorem pn_do_mechanisms_filters_and_offers (sasl : pni_sasl_t) (symbols : List String)
    (init_client_ok : Bool) (proc : String → Bool) :
    (sasl.last_state = SASL_PRETEND_OUTCOME →
      pn_do_mechanisms sasl symbols init_client_ok proc = ⟨sasl, none⟩) ∧
    (sasl.last_state ≠ SASL_PRETEND_OUTCOME → init_client_ok = true →
      (pn_do_mechanisms sasl symbols init_client_ok proc).offered =
        some (String.mk (spaceJoin (specKept sasl.included_mechanisms symbols)))) ∧
    (sasl.client = true → stateVal sasl.last_state ≤ stateVal SASL_POSTED_INIT →
      init_client_ok = true → (∀ x, proc x = true) →
      (pn_do_mechanisms sasl symbols init_client_ok proc).sasl.desired_state
          = SASL_POSTED_INIT ∧
      (pn_do_mechanisms sasl symbols init_client_ok proc).sasl.outcome
          = sasl.outcome) ∧
    (sasl.client = true → sasl.last_state ≠ SASL_PRETEND_OUTCOME →
      stateVal sasl.last_state ≤ stateVal SASL_RECVED_OUTCOME →
      (∀ x, proc x = false) →
      (pn_do_mechanisms sasl symbols init_client_ok proc).sasl.outcome
          = PN_SASL_PERM ∧
      (pn_do_mechanisms sasl symbols init_client_ok proc).sasl.desired_state
          = SASL_RECVED_OUTCOME) ∧
    (∀ t : String, pni_included_mech none t = true) ∧
    (∀ l t : String, pni_included_mech (some l) t = matchesAllowList l.data t.data) ∧
    (pn_do_mechanisms exAllowCtx ["GSSAPI", "PLAIN", "ANONYMOUS"] true
        (fun _ => true)).offered = some "PLAIN ANONYMOUS" := by
  refine ⟨?_, ?_, ?_, ?_, fun t => rfl, fun l t => pni_included_mech_matches l t, by decide⟩
  · intro h
    simp [pn_do_mechanisms, h]
  · intro hnp hok
    subst hok
    unfold pn_do_mechanisms
    rw [if_neg hnp]
    simp only [Bool.true_and]
    rw [show ∀ b : List Char, (if b.length > 0 then b.dropLast else b) = b.dropLast
          from fun b => by cases b <;> simp]
    rw [show (((symbols.filter (fun s => pni_included_mech sasl.included_mechanisms s)).map
            (fun s => s.data ++ [' '])).foldr (· ++ ·) []).dropLast
          = spaceJoin (specKept sasl.included_mechanisms symbols)
        from by rw [kept_eq_specKept]; exact trim_eq_spaceJoin _]
    split <;> simp
  · intro hc hl hok hpt
    subst hok
    have hnp : sasl.last_state ≠ SASL_PRETEND_OUTCOME := by
      intro he; rw [he] at hl; simp [stateVal] at hl
    have hcore := setDesiredCore_client_init sasl.last_state hl
    unfold pn_do_mechanisms
    rw [if_neg hnp]
    simp [hpt, pni_sasl_set_desired_state, hc, hcore]
  · intro hc hnp hl hpf
    have hcore := setDesiredCore_client_recved sasl.last_state hl
    unfold pn_do_mechanisms
    rw [if_neg hnp]
    simp [hpf, pni_sasl_set_desired_state, hc, hcore]

/-- Witness for C5: on a fresh client with allow-list "PLAIN ANONYMOUS"
receiving the advertisement of scenario 6, the backend is offered exactly
"PLAIN ANONYMOUS" and on success the desired state becomes POSTED_INIT. -/
theorem pn_do_mechanisms_filters_and_offers_witness :
    (pn_do_mechanisms exAllowCtx ["GSSAPI", "PLAIN", "ANONYMOUS"] true
        (fun _ => true)).offered =
      some (String.mk (spaceJoin (specKept (some "PLAIN ANONYMOUS")
        ["GSSAPI", "PLAIN", "ANONYMOUS"]))) ∧
    (pn_do_mechanisms exAllowCtx ["GSSAPI", "PLAIN", "ANONYMOUS"] true
        (fun _ => true)).sasl.desired_state = SASL_POSTED_INIT :=
  ⟨(pn_do_mechanisms_filters_and_offers exAllowCtx ["GSSAPI", "PLAIN", "ANONYMOUS"]
      true (fun _ => true)).2.1 (by decide) rfl,
   ((pn_do_mechanisms_filters_and_offers exAllowCtx ["GSSAPI", "PLAIN", "ANONYMOUS"]
      true (fun _ => true)).2.2.1 rfl (by decide) rfl (fun x => rfl)).1⟩

theorem mismatch_parts (p : pni_protocol_type) (bytes : List Nat) (eos : Bool) :
    ∃ pre mid post, mismatchDescription p bytes eos =
      pre ++ pni_protocol_name p ++ mid ++ pn_quote_data bytes ++ post :=
  ⟨"SASL" ++ " header mismatch: ", " ['",
    "']" ++ (if eos then " (connection aborted)" else ""),
    by simp [mismatchDescription, String.append_assoc]⟩

/-- Claim C4: on a sniff classifying the offered bytes as AMQP-SASL, the
layer consumes exactly 8 bytes and rewires its slot; on insufficient bytes
with the transport not at EOS it consumes zero bytes and changes nothing;
on insufficient bytes at EOS or any non-matching header it marks
close_sent, raises "amqp:connection:framing-error" whose description
contains the detected protocol name and the quoted rendering of the bad
bytes, and returns EOS. -/
theorem pn_input_read_sasl_header_cases (layer : IoLayerTag) (close_sent eos : Bool)
    (bytes : List Nat) :
    (pni_sniff_header bytes = pni_protocol_type.PNI_PROTOCOL_AMQP_SASL →
      pn_input_read_sasl_header layer close_sent eos bytes =
        ⟨ReadRet.consumed 8,
          (if layer = IoLayerTag.sasl_read_header_layer then IoLayerTag.sasl_layer
           else IoLayerTag.sasl_write_header_layer),
          close_sent, none⟩) ∧
    (pni_sniff_header bytes = pni_protocol_type.PNI_PROTOCOL_INSUFFICIENT →
      eos = false →
      pn_input_read_sasl_header layer close_sent eos bytes =
        ⟨ReadRet.consumed 0, layer, close_sent, none⟩) ∧
    (∀ p, pni_sniff_header bytes = p →
      (p = pni_protocol_type.PNI_PROTOCOL_INSUFFICIENT → eos = true) →
      p ≠ pni_protocol_type.PNI_PROTOCOL_AMQP_SASL →
      (pn_input_read_sasl_header layer close_sent eos bytes).ret = ReadRet.eos ∧
      (pn_input_read_sasl_header layer close_sent eos bytes).close_sent = true ∧
      (pn_input_read_sasl_header layer close_sent eos bytes).error =
        some ⟨"amqp:connection:framing-error", mismatchDescription p bytes eos⟩ ∧
      ∃ pre mid post, mismatchDescription p bytes eos =
        pre ++ pni_protocol_name p ++ mid ++ pn_quote_data bytes ++ post) := by
  refine ⟨?_, ?_, ?_⟩
  · intro hp
    simp [pn_input_read_sasl_header, hp]
  · intro hp he
    subst he
    simp [pn_input_read_sasl_header, hp]
  · intro p hp hins hnot
    refine ⟨?_, ?_, ?_, mismatch_parts p bytes eos⟩ <;>
      · subst hp
        rcases hsn : pni_sniff_header bytes with _ | _ | _ | _ | _
        · have he := hins hsn
          subst he
          simp [pn_input_read_sasl_header, hsn]
        · simp [pn_input_read_sasl_header, hsn]
        · exact absurd hsn hnot
        · simp [pn_input_read_sasl_header, hsn]
        · simp [pn_input_read_sasl_header, hsn]

/-- Witness for C4: the literal SASL header is consumed whole and rewires
the slot; a four-byte prefix with the transport open consumes nothing; the
bytes of "HTTP/1.1" close the transport with a framing error. -/
theorem pn_input_read_sasl_header_cases_witness :
    pn_input_read_sasl_header IoLayerTag.sasl_header_layer false false
        SASL_HEADER_BYTES =
      ⟨ReadRet.consumed 8, IoLayerTag.sasl_write_header_layer, false, none⟩ ∧
    pn_input_read_sasl_header IoLayerTag.sasl_header_layer false false
        [0x41, 0x4D, 0x51, 0x50] =
      ⟨ReadRet.consumed 0, IoLayerTag.sasl_header_layer, false, none⟩ ∧
    (pn_input_read_sasl_header IoLayerTag.sasl_header_layer false false
        [0x48, 0x54, 0x54, 0x50, 0x2F, 0x31, 0x2E, 0x31]).close_sent = true :=
  ⟨((pn_input_read_sasl_header_cases IoLayerTag.sasl_header_layer false false
      SASL_HEADER_BYTES).1 (by decide)).trans (by decide),
   (pn_input_read_sasl_header_cases IoLayerTag.sasl_header_layer false false
      [0x41, 0x4D, 0x51, 0x50]).2.1 (by decide) rfl,
   ((pn_input_read_sasl_header_cases IoLayerTag.sasl_header_layer false false
      [0x48, 0x54, 0x54, 0x50, 0x2F, 0x31, 0x2E, 0x31]).2.2
      pni_protocol_type.PNI_PROTOCOL_UNKNOWN (by decide)
      (fun h => absurd h (by decide)) (by decide)).2.1⟩

/-- Claim C6 (code bug): pni_split_mechs stores every passing token with no
bound of its own; on a seventeen-mechanism backend list with no allow-list
it stores seventeen entries, so the store loop of sasl.c lines 247-249 and
258-262, run from pni_post_sasl_frame's `char *mechs[16]` (line 309),
writes mechs[16], one element past the end of the array. -/
theorem pni_split_mechs_overflows_sixteen :
    (pni_split_mechs seventeenMechs none).length = 17 ∧
    16 < (pni_split_mechs seventeenMechs none).length := by
  decide

/-- Claim C7 (code bug): pn_sasl_allowed_mechs stores the new list with a
NULL guard but then calls strcmp on the argument unguarded; a NULL argument
therefore dereferences a null pointer (undefined behaviour, the `none`
result), and only the exact string "ANONYMOUS" triggers the anonymous
short-circuit. -/
theorem pn_sasl_allowed_mechs_null_reaches_ub :
    pn_sasl_allowed_mechs exClientCtx none true (fun _ => true) = none ∧
    (pn_sasl_allowed_mechs exClientCtx (some "PLAIN") true (fun _ => true)).map
      AllowedMechsResult.anonymous_forced = some false ∧
    (pn_sasl_allowed_mechs exClientCtx (some "anonymous") true (fun _ => true)).map
      AllowedMechsResult.anonymous_forced = some false ∧
    (pn_sasl_allowed_mechs exClientCtx (some "ANONYMOUS") true (fun _ => true)).map
      AllowedMechsResult.anonymous_forced = some true := by
  decide

end QpidProton
